import Mathlib

/-!
Verification development for the peanuts schema-typed record store.

The validation core is translated from `src/peanuts/cli/session.py`
(`Session.map_insert_to_json`, `Session.run_command`) and
`src/src/common.py` (`DataTypeConflictException`, `display_syntax`).
Parts of the repository that are only referenced from these files
(`src/schema.py`, `src/main.py`: `SchemaTypeToPyT`, `Schema.write`,
`Schema.read`, `Cache`, `Instance`) are modelled from the specification
and marked as such in their doc comments.
-/

/-- Runtime Python values as produced by `json.loads`, plus raw strings.
Floats carry their literal text: no claim depends on floating-point
arithmetic, only on the runtime type tag. String escape sequences and
non-ASCII escaping are not modelled (no claim exercises them). -/
inductive PyVal where
  | str (s : String)
  | int (n : Int)
  | float (lit : String)
  | bool (b : Bool)
  | null
  | list (xs : List PyVal)
  | dict (kvs : List (String × PyVal))

/-- The Python classes that `session.py` passes to `isinstance`. -/
inductive PyClass where
  | str
  | int
  | float
  | bool
deriving DecidableEq, Repr

/-- Python `isinstance(v, t)`. `bool` is a subclass of `int` in Python,
so a boolean value satisfies `isinstance(v, int)`. -/
def isinstance : PyVal → PyClass → Bool
  | .str _, .str => true
  | .int _, .int => true
  | .bool _, .int => true
  | .float _, .float => true
  | .bool _, .bool => true
  | _, _ => false

/-- Python `str(type(v))` for the values that can appear here. -/
def pyTypeName : PyVal → String
  | .str _ => "<class \x27str\x27>"
  | .int _ => "<class \x27int\x27>"
  | .float _ => "<class \x27float\x27>"
  | .bool _ => "<class \x27bool\x27>"
  | .null => "<class \x27NoneType\x27>"
  | .list _ => "<class \x27list\x27>"
  | .dict _ => "<class \x27dict\x27>"

/-- Python `str(t)` for a class object, as passed to the exception
constructor inside `verify_array`. -/
def pyClassName : PyClass → String
  | .str => "<class \x27str\x27>"
  | .int => "<class \x27int\x27>"
  | .float => "<class \x27float\x27>"
  | .bool => "<class \x27bool\x27>"

/-- `DataTypeConflictException(exp, got)` from `src/src/common.py`. -/
structure DataTypeConflictException where
  exp : String
  got : String
deriving DecidableEq, Repr

/-- The message built by `DataTypeConflictException.__init__`. -/
def DataTypeConflictException.message (e : DataTypeConflictException) : String :=
  "Expected " ++ e.exp ++ ", got " ++ e.got

/- ### Model of Python `json.loads` / `json.dumps`
The `json` module is an external collaborator; it is modelled here as a
recursive-descent parser over the JSON value grammar (null, booleans,
numbers, strings without escape sequences, arrays, objects). -/

def isWsChar (c : Char) : Bool :=
  c = ' ' || c = '\t' || c = '\n' || c = '\r'

def skipWs : List Char → List Char
  | [] => []
  | c :: cs => if isWsChar c then skipWs cs else c :: cs

def takeDigits : List Char → List Char × List Char
  | [] => ([], [])
  | c :: cs =>
    if c.isDigit then
      let p := takeDigits cs
      (c :: p.1, p.2)
    else ([], c :: cs)

def natOfDigits (ds : List Char) : Nat :=
  ds.foldl (fun n c => n * 10 + (c.toNat - 48)) 0

/-- Body of a JSON string after the opening quote; fails on escape
sequences (not modelled) and on a missing closing quote. -/
def parseStrBody : List Char → Option (List Char × List Char)
  | [] => none
  | c :: cs =>
    if c = '"' then some ([], cs)
    else if c = '\\' then none
    else
      match parseStrBody cs with
      | some (s, rest) => some (c :: s, rest)
      | none => none

def parseExpAfterE (e : Char) (cs : List Char) : Option (List Char × List Char) :=
  let sgn : List Char × List Char :=
    match cs with
    | '+' :: r => (['+'], r)
    | '-' :: r => (['-'], r)
    | r => ([], r)
  let ds := takeDigits sgn.2
  if ds.1.isEmpty then none
  else some (e :: (sgn.1 ++ ds.1), ds.2)

/-- Optional exponent part of a JSON number; returns the consumed
characters (empty when there is no exponent). -/
def parseExp : List Char → Option (List Char × List Char)
  | 'e' :: cs => parseExpAfterE 'e' cs
  | 'E' :: cs => parseExpAfterE 'E' cs
  | cs => some ([], cs)

/-- A JSON number: an integer when it has no fraction and no exponent,
a float otherwise (the float keeps its literal text). -/
def parseNumber (cs : List Char) : Option (PyVal × List Char) :=
  let sgn : Bool × List Char :=
    match cs with
    | '-' :: r => (true, r)
    | r => (false, r)
  let ds := takeDigits sgn.2
  if ds.1.isEmpty then none
  else
    match ds.2 with
    | '.' :: r2 =>
      let fs := takeDigits r2
      if fs.1.isEmpty then none
      else
        match parseExp fs.2 with
        | some (es, r3) =>
          some (.float (String.mk ((if sgn.1 then ['-'] else []) ++ ds.1 ++ '.' :: fs.1 ++ es)), r3)
        | none => none
    | r2 =>
      match parseExp r2 with
      | some ([], r3) =>
        some (.int (if sgn.1 then -(natOfDigits ds.1 : Int) else (natOfDigits ds.1 : Int)), r3)
      | some (es, r3) =>
        some (.float (String.mk ((if sgn.1 then ['-'] else []) ++ ds.1 ++ es)), r3)
      | none => none

mutual

def parseVal : Nat → List Char → Option (PyVal × List Char)
  | 0, _ => none
  | fuel + 1, cs =>
    match skipWs cs with
    | 't' :: 'r' :: 'u' :: 'e' :: r => some (.bool true, r)
    | 'f' :: 'a' :: 'l' :: 's' :: 'e' :: r => some (.bool false, r)
    | 'n' :: 'u' :: 'l' :: 'l' :: r => some (.null, r)
    | '"' :: r =>
      match parseStrBody r with
      | some (s, r2) => some (.str (String.mk s), r2)
      | none => none
    | '[' :: r =>
      match skipWs r with
      | ']' :: r2 => some (.list [], r2)
      | r2 =>
        match parseItems fuel r2 with
        | some (xs, r3) => some (.list xs, r3)
        | none => none
    | '\x7b' :: r =>
      match skipWs r with
      | '\x7d' :: r2 => some (.dict [], r2)
      | r2 =>
        match parseMembers fuel r2 with
        | some (kvs, r3) => some (.dict kvs, r3)
        | none => none
    | r => parseNumber r

def parseItems : Nat → List Char → Option (List PyVal × List Char)
  | 0, _ => none
  | fuel + 1, cs =>
    match parseVal fuel cs with
    | none => none
    | some (v, r) =>
      match skipWs r with
      | ',' :: r2 =>
        match parseItems fuel r2 with
        | some (xs, r3) => some (v :: xs, r3)
        | none => none
      | ']' :: r2 => some ([v], r2)
      | _ => none

def parseMembers : Nat → List Char → Option (List (String × PyVal) × List Char)
  | 0, _ => none
  | fuel + 1, cs =>
    match skipWs cs with
    | '"' :: r =>
      match parseStrBody r with
      | none => none
      | some (k, r2) =>
        match skipWs r2 with
        | ':' :: r3 =>
          match parseVal fuel r3 with
          | none => none
          | some (v, r4) =>
            match skipWs r4 with
            | ',' :: r5 =>
              match parseMembers fuel r5 with
              | some (kvs, r6) => some ((String.mk k, v) :: kvs, r6)
              | none => none
            | '\x7d' :: r5 => some ([(String.mk k, v)], r5)
            | _ => none
        | _ => none
    | _ => none

end

/-- Model of `json.loads`: parses one value and requires only
whitespace to remain. -/
def jsonParse (s : String) : Option PyVal :=
  match parseVal (2 * s.length + 2) s.toList with
  | some (v, rest) => if (skipWs rest).isEmpty then some v else none
  | none => none

mutual

/-- Model of `json.dumps` on a single value, with Python's default
separators. -/
def dumpVal : PyVal → String
  | .str s => "\"" ++ s ++ "\""
  | .int n => toString n
  | .float lit => lit
  | .bool b => if b then "true" else "false"
  | .null => "null"
  | .list xs => "[" ++ dumpItems xs ++ "]"
  | .dict kvs => "\x7b" ++ dumpMembers kvs ++ "\x7d"

def dumpItems : List PyVal → String
  | [] => ""
  | [x] => dumpVal x
  | x :: y :: xs => dumpVal x ++ ", " ++ dumpItems (y :: xs)

def dumpMembers : List (String × PyVal) → String
  | [] => ""
  | [(k, v)] => "\"" ++ k ++ "\": " ++ dumpVal v
  | (k, v) :: y :: xs => "\"" ++ k ++ "\": " ++ dumpVal v ++ ", " ++ dumpMembers (y :: xs)

end

/-- Model of `json.dumps` applied to the `entries` dict of
`map_insert_to_json` (insertion order preserved, as Python dicts do). -/
def jsonDumps (entries : List (String × PyVal)) : String :=
  "\x7b" ++ dumpMembers entries ++ "\x7d"

/- ### Validation core, translated from `Session.map_insert_to_json`
(`src/peanuts/cli/session.py`, lines 50-87). -/

/-- `SchemaTypeToPyT` — the field-type enumeration. Its members are the
ones `session.py` references (`src/schema.py` itself is not under
`src/`; the spec's FieldType enumeration lists the same scalar types and
their homogeneous-array counterparts). -/
inductive SchemaTypeToPyT where
  | STRING
  | INTEGER
  | FLOAT
  | BOOL
  | A_STRING
  | A_INTEGER
  | A_FLOAT
  | A_BOOL
deriving DecidableEq, Repr

/-- The exceptions that can escape the body of the per-field loop of
`map_insert_to_json`:
`typeConflict` is `DataTypeConflictException`,
`jsonDecodeError` is `json.decoder.JSONDecodeError` (the spec's
MalformedInput), `assertionFailed` is `AssertionError` (a bare `assert`
carries an empty message), and `typeError` is an uncaught `TypeError`
from iterating a non-iterable value. -/
inductive InsertError where
  | typeConflict (e : DataTypeConflictException)
  | jsonDecodeError
  | assertionFailed (msg : String)
  | typeError
deriving DecidableEq, Repr

/-- Python iteration (`for item in v`): lists yield their elements,
strings their one-character substrings, dicts their keys; other values
raise `TypeError`. -/
def pyIter : PyVal → Option (List PyVal)
  | .list xs => some xs
  | .str s => some (s.toList.map fun c => .str (String.mk [c]))
  | .dict kvs => some (kvs.map fun p => .str p.1)
  | _ => none

/-- `verify_array(t, arr)` from `session.py` lines 59-62: raises
`DataTypeConflictException(str(t), str(type(item)))` at the first
element that is not an `isinstance` of `t`; otherwise returns `None`
(modelled as `Unit`). -/
def verify_array (t : PyClass) : List PyVal → Except DataTypeConflictException Unit
  | [] => .ok ()
  | item :: arr =>
    if isinstance item t then verify_array t arr
    else .error ⟨pyClassName t, pyTypeName item⟩

/-- One iteration of the `for key, tdata in items.items()` loop of
`map_insert_to_json` (lines 54-85), applied to the raw console input
`ind` for the field: STRING fields store the raw text; all other fields
first `json.loads` the text, then run the type checks. For the array
types the source executes `assert verify_array(X, data)`: since
`verify_array` returns `None`, the `assert` raises `AssertionError`
(with no message) even when every element matched. -/
def processField (tdata : SchemaTypeToPyT) (ind : String) : Except InsertError PyVal :=
  if tdata = .STRING then .ok (.str ind)
  else
    match jsonParse ind with
    | none => .error .jsonDecodeError
    | some data =>
      if tdata = .A_BOOL ∨ tdata = .A_FLOAT ∨ tdata = .A_INTEGER ∨ tdata = .A_STRING then
        match pyIter data with
        | none => .error .typeError
        | some arr =>
          let res :=
            if tdata = .A_STRING then verify_array .str arr
            else if tdata = .A_INTEGER then verify_array .int arr
            else if tdata = .A_FLOAT then verify_array .float arr
            else verify_array .bool arr
          match res with
          | .error e => .error (.typeConflict e)
          | .ok _ => .error (.assertionFailed "")
      else if tdata = .BOOL ∧ isinstance data .bool = false then
        .error (.typeConflict ⟨"bool", pyTypeName data⟩)
      else if tdata = .INTEGER ∧ isinstance data .int = false then
        .error (.typeConflict ⟨"int", pyTypeName data⟩)
      else if tdata = .FLOAT ∧ isinstance data .float = false then
        .error (.typeConflict ⟨"float", pyTypeName data⟩)
      else .ok data

/-- The whole loop of `map_insert_to_json` building the `entries` dict
in declaration order. `inputs` maps each prompted field name to the
text the user enters. -/
def mapInsertEntries (inputs : String → String) :
    List (String × SchemaTypeToPyT) → Except InsertError (List (String × PyVal))
  | [] => .ok []
  | (key, tdata) :: rest =>
    match processField tdata (inputs key) with
    | .error e => .error e
    | .ok v =>
      match mapInsertEntries inputs rest with
      | .error e => .error e
      | .ok es => .ok ((key, v) :: es)

/-- `Session.map_insert_to_json`: the validated entries serialized with
`json.dumps`. -/
def map_insert_to_json (inputs : String → String)
    (items : List (String × SchemaTypeToPyT)) : Except InsertError String :=
  (mapInsertEntries inputs items).map jsonDumps

/- ### Session state: schemas, caches, on-disk store. -/

/-- First-match association-list lookup (Python `dict` access keyed by
strings; insertion order preserved). -/
def lookupA {α : Type} : List (String × α) → String → Option α
  | [], _ => none
  | (k, v) :: rest, key => if k = key then some v else lookupA rest key

/-- Overwrite-or-create in an association list, keeping the original
position of an existing key (Python `dict` assignment / overwriting a
file of that name). -/
def setA {α : Type} : List (String × α) → String → α → List (String × α)
  | [], key, v => [(key, v)]
  | (k, w) :: rest, key, v =>
    if k = key then (key, v) :: rest else (k, w) :: setA rest key v

/-- One stored record: field name to validated value, as serialized into
the record's file. -/
abbrev Record := List (String × PyVal)

/-- A schema in memory: its ordered field configuration (`configs` in
`session.py`) and its cache (modelled from the spec: an in-memory
mapping from record identifier to record). -/
structure SchemaM where
  configs : List (String × SchemaTypeToPyT)
  cache : List (String × Record)

/-- The state a `Session` closes over: the registered schemas of the
`Instance` and the on-disk store, addressed by (schema name, record
id) as the spec's Storage Backend prescribes. -/
structure SessionState where
  schemas : List (String × SchemaM)
  disk : List (String × List (String × Record))

/-- The record files currently on disk under one schema's directory. -/
def diskRecords (st : SessionState) (sname : String) : List (String × Record) :=
  (lookupA st.disk sname).getD []

/-- Replace one schema's cache in the registry, leaving every other
schema untouched. -/
def updateSchemaCache (schemas : List (String × SchemaM)) (sname : String)
    (f : List (String × Record) → List (String × Record)) : List (String × SchemaM) :=
  schemas.map fun p => if p.1 = sname then (p.1, { p.2 with cache := f p.2.cache }) else p

/-- Modelled from the spec: the tail of `Schema.write` after
validation — the Storage Backend persists the validated record with
overwrite-or-create semantics, then `Cache.put` overwrites the
in-memory entry. -/
def persistPut (st : SessionState) (sname id : String) (rec : Record) : SessionState :=
  { schemas := updateSchemaCache st.schemas sname (fun c => setA c id rec),
    disk := setA st.disk sname (setA (diskRecords st sname) id rec) }

/-- Modelled from the spec: `Cache.get` — returns the in-memory value if
present; otherwise performs a single on-disk lookup, populating the
in-memory entry on success; absent from both cache and disk means
`RecordNotFound` (a `FileNotFoundError` from the missing file), the
`none` case here. -/
def cacheGet (st : SessionState) (sname : String) (sc : SchemaM) (id : String) :
    Option (Record × SessionState) :=
  match lookupA sc.cache id with
  | some r => some (r, st)
  | none =>
    match lookupA (diskRecords st sname) id with
    | some r =>
      some (r, { st with schemas := updateSchemaCache st.schemas sname (fun c => setA c id r) })
    | none => none

/-- Modelled from the spec: `Schema.read` delegates to `Cache.get`. -/
def schemaRead (st : SessionState) (sname id : String) : Option (Record × SessionState) :=
  match lookupA st.schemas sname with
  | some sc => cacheGet st sname sc id
  | none => none

/-- Modelled from the spec: `Cache.load` with no identifiers — a full
warm load that rebuilds the schema's cache from every record file under
its storage directory. -/
def cacheLoad (st : SessionState) (sname : String) : SessionState :=
  { st with schemas := updateSchemaCache st.schemas sname (fun _ => diskRecords st sname) }

/-- The `!load_cache` branch with no arguments: load every schema's
cache. -/
def loadAllCaches (st : SessionState) : SessionState :=
  st.schemas.foldl (fun acc p => cacheLoad acc p.1) st

/-- Python `str.strip()` with no argument: remove leading and trailing
whitespace. -/
def pyStrip (s : String) : String :=
  String.mk (skipWs (skipWs s.toList).reverse).reverse

/-- The `for sname in restargs` loop of the `!load_cache` branch
(`session.py` lines 98-104): each name is announced, then its schema's
cache is loaded; a `KeyError` for an unknown name is caught inside the
loop body and reported, and the loop continues with the next name. -/
def loadCacheLoop : SessionState → List String → SessionState × List String
  | st, [] => (st, [])
  | st, sname :: rest =>
    let msg := "⌛[blue]Loading " ++ sname ++ " ..."
    match lookupA st.schemas (pyStrip sname) with
    | some _ =>
      let r := loadCacheLoop (cacheLoad st (pyStrip sname)) rest
      (r.1, msg :: r.2)
    | none =>
      let r := loadCacheLoop st rest
      (r.1, msg :: ("[red]No schema named [bold]" ++ sname ++ "[/bold] found.") :: r.2)

/-- The FieldType tokens of a schema declaration (spec section 6). -/
def parseFieldType : String → Option SchemaTypeToPyT
  | "STRING" => some .STRING
  | "INTEGER" => some .INTEGER
  | "FLOAT" => some .FLOAT
  | "BOOL" => some .BOOL
  | "ARRAY_STRING" => some .A_STRING
  | "ARRAY_INTEGER" => some .A_INTEGER
  | "ARRAY_FLOAT" => some .A_FLOAT
  | "ARRAY_BOOL" => some .A_BOOL
  | _ => none

/-- Alternating `field type` tokens parsed pairwise; `none` on an odd
count or an unrecognized type token (the spec's MalformedSchema). -/
def parsePairs : List String → Option (List (String × SchemaTypeToPyT))
  | [] => some []
  | [_] => none
  | name :: ty :: rest =>
    match parseFieldType ty, parsePairs rest with
    | some t, some l => some ((name, t) :: l)
    | _, _ => none

/-- Modelled from the spec: `Instance.add_schema` — parses the pairwise
declaration (MalformedSchema on failure), rejects duplicate names
(DuplicateSchema, the spec's mandated policy), and creates the schema
with an empty cache and an empty on-disk directory. -/
def addSchema (st : SessionState) (name : String) (tokens : List String) :
    Except String SessionState :=
  match parsePairs tokens with
  | none => .error "MalformedSchema"
  | some configs =>
    match lookupA st.schemas name with
    | some _ => .error "DuplicateSchema"
    | none =>
      .ok { schemas := st.schemas ++ [(name, { configs := configs, cache := [] })],
            disk := setA st.disk name [] }

/-- Modelled from the spec: `Instance.drop_schema` — SchemaNotFound if
absent; removes the schema and recursively deletes its directory. -/
def dropSchema (st : SessionState) (name : String) : Except String SessionState :=
  match lookupA st.schemas name with
  | none => .error "SchemaNotFound"
  | some _ =>
    .ok { schemas := st.schemas.filter (fun p => p.1 != name),
          disk := st.disk.filter (fun p => p.1 != name) }

/-- `display_syntax(cmd, valid)` from `src/src/common.py`. -/
def displayUsage (cmd valid : String) : String :=
  "[red]Wrong usage of command " ++ cmd ++
    "\n[bold]Correct Usage (<>: Required, []: Optional):[/bold][/red] [green]" ++
    valid ++ "[/green]"

/-- The enumeration member name shown for a field type. -/
def typeToken : SchemaTypeToPyT → String
  | .STRING => "STRING"
  | .INTEGER => "INTEGER"
  | .FLOAT => "FLOAT"
  | .BOOL => "BOOL"
  | .A_STRING => "A_STRING"
  | .A_INTEGER => "A_INTEGER"
  | .A_FLOAT => "A_FLOAT"
  | .A_BOOL => "A_BOOL"

/-- Modelled from the spec: `Schema.display_dict` — the declared fields
and their types as ordered (name, type) rows. -/
def display_dict (sc : SchemaM) : List (String × String) :=
  sc.configs.map fun p => (p.1, typeToken p.2)

/-- Abstract rendering of the `tabulate` output for a list of rows
(layout details of the external library are not modelled). -/
def renderTable (rows : List (String × String)) : String :=
  String.intercalate "\n" (rows.map fun p => p.1 ++ " | " ++ p.2)

/-- Abstract rendering of the record table printed by `select`. -/
def renderRecord (r : Record) : String :=
  String.intercalate "\n" (r.map fun p => p.1 ++ " | " ++ dumpVal p.2)

/-- Modelled from the spec: the Type System check used by
`Schema.write` on a raw structured payload — the value's runtime shape
must match the declared type, arrays element-wise. -/
def tagMatches : SchemaTypeToPyT → PyVal → Bool
  | .STRING, .str _ => true
  | .INTEGER, .int _ => true
  | .FLOAT, .float _ => true
  | .BOOL, .bool _ => true
  | .A_STRING, .list xs => xs.all fun v => match v with | .str _ => true | _ => false
  | .A_INTEGER, .list xs => xs.all fun v => match v with | .int _ => true | _ => false
  | .A_FLOAT, .list xs => xs.all fun v => match v with | .float _ => true | _ => false
  | .A_BOOL, .list xs => xs.all fun v => match v with | .bool _ => true | _ => false
  | _, _ => false

/-- Modelled from the spec: per-key validation of a raw mapping for
`Schema.write` — keys with a declared FieldType are type-checked,
unknown keys pass through without enforcement. -/
def validateFields (configs : List (String × SchemaTypeToPyT)) :
    List (String × PyVal) → Except DataTypeConflictException Record
  | [] => .ok []
  | (k, v) :: rest =>
    match lookupA configs k with
    | some t =>
      if tagMatches t v then
        match validateFields configs rest with
        | .ok r => .ok ((k, v) :: r)
        | .error e => .error e
      else .error ⟨typeToken t, pyTypeName v⟩
    | none =>
      match validateFields configs rest with
      | .ok r => .ok ((k, v) :: r)
      | .error e => .error e

/-- Modelled from the spec: `Schema.write` (not under `src/`) on an
already structured mapping — for each supplied key, looks up its
declared FieldType (unknown keys pass through without enforcement),
runs Type System validation, aggregates the validated fields into a
Record, persists it via the Storage Backend and updates the Cache;
fails with TypeConflict propagated from the Type System. -/
def schemaWrite (st : SessionState) (sname id : String) (kvs : List (String × PyVal)) :
    Except DataTypeConflictException SessionState :=
  match validateFields ((lookupA st.schemas sname).map SchemaM.configs |>.getD []) kvs with
  | .ok rec => .ok (persistPut st sname id rec)
  | .error e => .error e

/-- Modelled from the spec: `Schema.write` on a raw structured payload
(the non-interactive insert path) — MalformedInput if the payload is
not a well-formed structured mapping, otherwise the write above. -/
def schemaWriteRaw (st : SessionState) (sname id payload : String) :
    Except InsertError SessionState :=
  match jsonParse payload with
  | none => .error .jsonDecodeError
  | some (.dict kvs) =>
    match schemaWrite st sname id kvs with
    | .ok st2 => .ok st2
    | .error e => .error (.typeConflict e)
  | some _ => .error .jsonDecodeError

/-- How `run_command` terminates, as observed by `run_session`:
`normal` returns with messages printed along the way; `assertionError`
is an `AssertionError` escaping `run_command`, caught by `run_session`,
reported, and the prompt loop continues; `quitSession` is the
`KeyboardInterrupt` of the quit commands; `fatal` is any other uncaught
exception (e.g. `IndexError`, `TypeError`), which escapes `run_session`
and kills the process. -/
inductive CmdOutcome where
  | normal (st : SessionState) (out : List String)
  | assertionError (st : SessionState) (msg : String)
  | quitSession (st : SessionState)
  | fatal

/-- Whether the interactive session survives this outcome and prompts
again (`run_session` catches `AssertionError` and loops). -/
def sessionContinues : CmdOutcome → Bool
  | .normal _ _ => true
  | .assertionError _ _ => true
  | .quitSession _ => false
  | .fatal => false

/-- `Session.run_command` (`session.py` lines 89-143), with `inputs`
supplying the per-field console answers of the interactive insert. -/
def runCommand (inputs : String → String) (st : SessionState)
    (action : String) (restargs : List String) : CmdOutcome :=
  if action = "!create_schema" then
    match restargs with
    | [] => .fatal
    | name :: rest =>
      match addSchema st name rest with
      | .ok st2 => .normal st2 []
      | .error e => .assertionError st e
  else if action = "!drop_schema" then
    match restargs with
    | [] => .fatal
    | name :: _ =>
      match dropSchema st name with
      | .ok st2 => .normal st2 []
      | .error e => .assertionError st e
  else if action = "!load_cache" then
    if restargs.isEmpty then .normal (loadAllCaches st) []
    else
      let r := loadCacheLoop st restargs
      .normal r.1 r.2
  else if action = "!display_schema" then
    if restargs.length ≠ 1 then
      .normal st [displayUsage "!display_schema" "!display_schema <schema_name>"]
    else
      match restargs with
      | [sname] =>
        match lookupA st.schemas sname with
        | none => .assertionError st ("No schema named [bold]" ++ sname ++ "[/bold] found")
        | some sc => .normal st [renderTable (display_dict sc)]
      | _ => .fatal
  else if action = "insert" then
    match restargs with
    | [] => .fatal
    | sname :: rest =>
      match lookupA st.schemas sname with
      | none => .assertionError st ("No schema named [bold]" ++ sname ++ "[/bold] found")
      | some sc =>
        match rest with
        | [] => .fatal
        | [id] =>
          match mapInsertEntries inputs sc.configs with
          | .ok entries =>
            match schemaWrite st sname id entries with
            | .ok st2 => .normal st2 []
            | .error e => .normal st ["[red]" ++ e.message]
          | .error (.typeConflict e) => .normal st ["[red]" ++ e.message]
          | .error .jsonDecodeError => .normal st ["[red]Invalid Input."]
          | .error (.assertionFailed m) => .assertionError st m
          | .error .typeError => .fatal
        | id :: payload =>
          match schemaWriteRaw st sname id (String.intercalate " " payload) with
          | .ok st2 => .normal st2 []
          | .error _ => .fatal
  else if action = "select" then
    match restargs with
    | [] => .fatal
    | sname :: rest =>
      match lookupA st.schemas sname with
      | none => .assertionError st ("No schema named " ++ sname ++ " found")
      | some sc =>
        match rest with
        | [] => .fatal
        | id :: _ =>
          match cacheGet st sname sc id with
          | some (data, st2) => .normal st2 [renderRecord data]
          | none => .normal st ["[red]No data with ID " ++ id ++ " found."]
  else if action = "!q" ∨ action = "!quit" ∨ action = ":q" ∨ action = ":quit" then
    .quitSession st
  else
    .normal st ["[red]Invalid Command, use [bold]!help[/bold] to get a list of available commands."]


/- ### Concrete scenario states (used by witnesses and counterexamples). -/

/-- Scenario state: schema `user` with a single INTEGER field `age`,
cold cache, empty directory. -/
def ageState : SessionState :=
  { schemas := [("user", { configs := [("age", .INTEGER)], cache := [] })],
    disk := [("user", [])] }

/-- Scenario state: schema `user` declared as `name STRING age INTEGER`
(the spec's round-trip scenario), cold cache, empty directory. -/
def userState : SessionState :=
  { schemas := [("user", { configs := [("name", .STRING), ("age", .INTEGER)], cache := [] })],
    disk := [("user", [])] }

/-- Console inputs for the round-trip scenario: `Ann` for `name`,
`30` for `age`. -/
def annInputs : String → String :=
  fun k => if k = "age" then "30" else "Ann"

/-- Scenario state for the bulk-load scenario: schema `a` has one
record on disk and a cold cache. -/
def loadState : SessionState :=
  { schemas := [("a", { configs := [("age", .INTEGER)], cache := [] })],
    disk := [("a", [("u1", [("age", PyVal.int 30)])])] }

/- ### Helper lemmas. -/

theorem lookupA_setA_self {α : Type} (l : List (String × α)) (k : String) (v : α) :
    lookupA (setA l k v) k = some v := by
  induction l with
  | nil => simp [setA, lookupA]
  | cons p rest ih =>
    obtain ⟨k1, v1⟩ := p
    by_cases h : k1 = k
    · simp [setA, h, lookupA]
    · simp [setA, h, lookupA, ih]

theorem lookupA_setA_ne {α : Type} (l : List (String × α)) (k k2 : String) (v : α)
    (h : k2 ≠ k) : lookupA (setA l k v) k2 = lookupA l k2 := by
  induction l with
  | nil => simp [setA, lookupA, Ne.symm h]
  | cons p rest ih =>
    obtain ⟨k1, v1⟩ := p
    by_cases h1 : k1 = k
    · subst h1
      simp [setA, lookupA, Ne.symm h]
    · by_cases h2 : k1 = k2
      · simp [setA, h1, lookupA, h2, h]
      · simp [setA, h1, lookupA, h2, ih]

theorem updateSchemaCache_cons (k : String) (sc : SchemaM) (rest : List (String × SchemaM))
    (n : String) (f : List (String × Record) → List (String × Record)) :
    updateSchemaCache ((k, sc) :: rest) n f
      = (if k = n then (k, { sc with cache := f sc.cache }) else (k, sc))
          :: updateSchemaCache rest n f := rfl

theorem lookupA_updateSchemaCache (schemas : List (String × SchemaM)) (n : String)
    (f : List (String × Record) → List (String × Record)) (s : String) :
    lookupA (updateSchemaCache schemas n f) s
      = if s = n
        then (lookupA schemas s).map (fun sc => { sc with cache := f sc.cache })
        else lookupA schemas s := by
  induction schemas with
  | nil => simp [updateSchemaCache, lookupA]
  | cons p rest ih =>
    obtain ⟨k, sc⟩ := p
    rw [updateSchemaCache_cons]
    by_cases h1 : k = n
    · rw [if_pos h1]
      subst h1
      by_cases h2 : k = s
      · subst h2
        simp [lookupA]
      · have hsk : ¬(s = k) := fun hh => h2 hh.symm
        simp [lookupA, h2, hsk, ih]
    · rw [if_neg h1]
      by_cases h2 : k = s
      · subst h2
        simp [lookupA, h1]
      · simp [lookupA, h1, h2, ih]

theorem processField_string (ind : String) : processField .STRING ind = .ok (.str ind) := rfl

theorem processField_parse_none {t : SchemaTypeToPyT} (ind : String)
    (hne : t ≠ .STRING) (hp : jsonParse ind = none) :
    processField t ind = .error .jsonDecodeError := by
  simp [processField, hne, hp]

theorem processField_parse_congr {t : SchemaTypeToPyT} (ind ind2 : String)
    (hne : t ≠ .STRING) (hp : jsonParse ind = jsonParse ind2) :
    processField t ind = processField t ind2 := by
  rw [processField, processField, if_neg hne, if_neg hne, hp]

theorem processField_ok_val {t : SchemaTypeToPyT} {ind : String} {v : PyVal}
    (hne : t ≠ .STRING) (h : processField t ind = .ok v) :
    jsonParse ind = some v := by
  rw [processField, if_neg hne] at h
  cases hp : jsonParse ind with
  | none => simp only [hp] at h; exact Except.noConfusion h
  | some data =>
    simp only [hp] at h
    split at h
    · cases hi : pyIter data with
      | none => simp only [hi] at h; exact Except.noConfusion h
      | some arr =>
        simp only [hi] at h
        split at h <;> exact Except.noConfusion h
    · split at h
      · exact Except.noConfusion h
      · split at h
        · exact Except.noConfusion h
        · split at h
          · exact Except.noConfusion h
          · cases h
            rfl

/-- Structure of a successful `mapInsertEntries` run: keys in
declaration order, each value produced by `processField` on that
field's input. -/
theorem mapInsertEntries_ok_spec (inputs : String → String) :
    ∀ (configs : List (String × SchemaTypeToPyT)) (entries : Record),
      mapInsertEntries inputs configs = .ok entries →
      List.Forall₂
        (fun (p : String × SchemaTypeToPyT) (e : String × PyVal) =>
          e.1 = p.1 ∧ processField p.2 (inputs p.1) = .ok e.2)
        configs entries
  | [], entries, h => by
    simp only [mapInsertEntries] at h
    cases h
    exact List.Forall₂.nil
  | (key, tdata) :: rest, entries, h => by
    simp only [mapInsertEntries] at h
    cases hp : processField tdata (inputs key) with
    | error e => simp only [hp] at h; exact Except.noConfusion h
    | ok v =>
      simp only [hp] at h
      cases hr : mapInsertEntries inputs rest with
      | error e => simp only [hr] at h; exact Except.noConfusion h
      | ok es =>
        simp only [hr] at h
        cases h
        exact List.Forall₂.cons ⟨rfl, hp⟩ (mapInsertEntries_ok_spec inputs rest es hr)

theorem mapInsertEntries_ok_keys (inputs : String → String)
    (configs : List (String × SchemaTypeToPyT)) (entries : Record)
    (h : mapInsertEntries inputs configs = .ok entries) :
    entries.map Prod.fst = configs.map Prod.fst := by
  have hf := mapInsertEntries_ok_spec inputs configs entries h
  clear h
  induction hf with
  | nil => rfl
  | cons h1 h2 ih => simp [h1.1, ih]

/- ### Claims. -/

/-- C1: the claim says array validation succeeds when every element of
the sequence matches the scalar base type. On the code it never does:
`verify_array` returns `None` even on a fully matching array (first
conjunct), so the `assert verify_array(...)` raises `AssertionError`
instead of succeeding (second conjunct). The failure side of the claim
does hold: a mismatching element aborts with a TypeConflict carrying
the expected base type and the offending element's type (third
conjunct). -/
theorem C1_array_assert_evaluation :
    verify_array .str [.str "a"] = .ok ()
    ∧ processField .A_STRING "[\"a\"]" = .error (.assertionFailed "")
    ∧ processField .A_INTEGER "[1, \"x\"]"
        = .error (.typeConflict ⟨"<class \x27int\x27>", "<class \x27str\x27>"⟩) :=
  ⟨rfl, rfl, rfl⟩

/-- C2 counterexample: the claim says a boolean value is rejected for
an INTEGER field. The code accepts it: `json.loads("true")` is `True`,
`isinstance(True, int)` holds in Python, and the value is stored even
though its runtime type is `bool`, not `int`. -/
theorem C2_counterexample_bool_accepted_for_integer :
    processField .INTEGER "true" = .ok (.bool true)
    ∧ ∀ n : Int, PyVal.bool true ≠ PyVal.int n :=
  ⟨rfl, fun _ h => PyVal.noConfusion h⟩

/-- C2 (amended): scalar validation follows Python `isinstance`
semantics: BOOL accepts exactly booleans; INTEGER accepts integers and
also booleans (`bool` is a subclass of `int`); FLOAT accepts exactly
floats (integers and booleans rejected); a STRING field accepts the
raw input unconditionally; every rejection is a TypeConflict carrying
the expected type name and the value's actual runtime type. -/
theorem C2_scalar_isinstance (ind : String) (d : PyVal) (hp : jsonParse ind = some d) :
    processField .STRING ind = .ok (.str ind)
    ∧ processField .BOOL ind
        = (if isinstance d .bool then .ok d
           else .error (.typeConflict ⟨"bool", pyTypeName d⟩))
    ∧ processField .INTEGER ind
        = (if isinstance d .int then .ok d
           else .error (.typeConflict ⟨"int", pyTypeName d⟩))
    ∧ processField .FLOAT ind
        = (if isinstance d .float then .ok d
           else .error (.typeConflict ⟨"float", pyTypeName d⟩))
    ∧ isinstance (.bool true) .int = true
    ∧ isinstance (.int 0) .float = false := by
  refine ⟨rfl, ?_, ?_, ?_, rfl, rfl⟩
  · cases hb : isinstance d .bool <;> simp [processField, hp, hb]
  · cases hb : isinstance d .int <;> simp [processField, hp, hb]
  · cases hb : isinstance d .float <;> simp [processField, hp, hb]

/-- C2 witness: an integer is rejected for a FLOAT field, and a
boolean is accepted for a BOOL field. -/
theorem C2_scalar_isinstance_witness :
    processField .FLOAT "3" = .error (.typeConflict ⟨"float", "<class \x27int\x27>"⟩)
    ∧ processField .BOOL "true" = .ok (.bool true) :=
  ⟨((C2_scalar_isinstance "3" (.int 3) rfl).2.2.2.1).trans rfl,
   ((C2_scalar_isinstance "true" (.bool true) rfl).2.1).trans rfl⟩

/-- C3: a STRING field stores the raw console text directly with no
JSON decoding; for every non-string field the raw text is decoded
first — an undecodable input fails before any type check, and the
outcome depends only on the decoded value. -/
theorem C3_string_raw_nonstring_decoded (t : SchemaTypeToPyT) (ind : String) :
    processField .STRING ind = .ok (.str ind)
    ∧ (t ≠ .STRING → jsonParse ind = none → processField t ind = .error .jsonDecodeError)
    ∧ (t ≠ .STRING → ∀ ind2, jsonParse ind = jsonParse ind2 →
        processField t ind = processField t ind2) :=
  ⟨processField_string ind,
   fun hne hp => processField_parse_none ind hne hp,
   fun hne ind2 hp => processField_parse_congr ind ind2 hne hp⟩

/-- C3 witness: raw text for STRING, decode failure for INTEGER. -/
theorem C3_witness :
    processField .STRING "hello" = .ok (.str "hello")
    ∧ processField .INTEGER "oops" = .error .jsonDecodeError :=
  ⟨(C3_string_raw_nonstring_decoded .STRING "hello").1,
   (C3_string_raw_nonstring_decoded .INTEGER "oops").2.1 (by decide) rfl⟩

/-- C4: `DataTypeConflictException(e, g)` carries exactly the message
`Expected e, got g`; a string value written into an INTEGER field
yields expected `int` and actual `<class str>`; and the insert command
surfaces that very message to the caller. -/
theorem C4_type_conflict_surfaced :
    (∀ e g : String,
      DataTypeConflictException.message ⟨e, g⟩ = "Expected " ++ e ++ ", got " ++ g)
    ∧ processField .INTEGER "\"thirty\""
        = .error (.typeConflict ⟨"int", "<class \x27str\x27>"⟩)
    ∧ runCommand (fun _ => "\"thirty\"") ageState "insert" ["user", "u2"]
        = .normal ageState ["[red]Expected int, got <class \x27str\x27>"] :=
  ⟨fun _ _ => rfl, rfl, rfl⟩

/-- C5: an undecodable structured payload for the first field makes
the whole interactive insert fail with the JSON decode error
(MalformedInput) before any type validation; `run_command` reports
`Invalid Input.`, leaves the state unchanged, and the session
continues. -/
theorem C5_malformed_input_recoverable (inputs : String → String) (st : SessionState)
    (sname id key : String) (tdata : SchemaTypeToPyT)
    (rest : List (String × SchemaTypeToPyT)) (sc : SchemaM)
    (hs : lookupA st.schemas sname = some sc)
    (hcfg : sc.configs = (key, tdata) :: rest)
    (hne : tdata ≠ .STRING)
    (hp : jsonParse (inputs key) = none) :
    mapInsertEntries inputs sc.configs = .error .jsonDecodeError
    ∧ runCommand inputs st "insert" [sname, id] = .normal st ["[red]Invalid Input."]
    ∧ sessionContinues (runCommand inputs st "insert" [sname, id]) = true := by
  have hm : mapInsertEntries inputs sc.configs = .error .jsonDecodeError := by
    simp [hcfg, mapInsertEntries, processField_parse_none (inputs key) hne hp]
  refine ⟨hm, ?_, ?_⟩
  · simp [runCommand, hs, hm]
  · simp [runCommand, hs, hm, sessionContinues]

/-- C5 witness: the one-INTEGER-field schema with input `oops`. -/
theorem C5_witness :
    runCommand (fun _ => "oops") ageState "insert" ["user", "u1"]
      = .normal ageState ["[red]Invalid Input."] :=
  (C5_malformed_input_recoverable (fun _ => "oops") ageState "user" "u1" "age" .INTEGER []
    { configs := [("age", .INTEGER)], cache := [] } rfl rfl (by decide) rfl).2.1

/-- C6: an identifier absent from both the cache and the disk makes
the read fail (`RecordNotFound`, mapped from the absent file); the
`select` command reports the miss, leaves the state unchanged, and the
session continues. -/
theorem C6_record_not_found (inputs : String → String) (st : SessionState)
    (sname id : String) (sc : SchemaM)
    (hs : lookupA st.schemas sname = some sc)
    (hcache : lookupA sc.cache id = none)
    (hdisk : lookupA (diskRecords st sname) id = none) :
    schemaRead st sname id = none
    ∧ runCommand inputs st "select" [sname, id]
        = .normal st ["[red]No data with ID " ++ id ++ " found."]
    ∧ sessionContinues (runCommand inputs st "select" [sname, id]) = true := by
  have hg : cacheGet st sname sc id = none := by
    simp [cacheGet, hcache, hdisk]
  refine ⟨?_, ?_, ?_⟩
  · simp [schemaRead, hs, hg]
  · simp [runCommand, hs, hg]
  · simp [runCommand, hs, hg, sessionContinues]

/-- C6 witness: `read("nope")` on the empty-directory schema. -/
theorem C6_witness :
    schemaRead ageState "user" "nope" = none
    ∧ runCommand (fun _ => "") ageState "select" ["user", "nope"]
        = .normal ageState ["[red]No data with ID nope found."] := by
  have h := C6_record_not_found (fun _ => "") ageState "user" "nope"
    { configs := [("age", .INTEGER)], cache := [] } rfl rfl rfl
  exact ⟨h.1, h.2.1⟩

/-- C10: `!display_schema` with an argument count other than one
prints the correct-usage message and returns with the state (schemas,
caches, disk) unchanged. -/
theorem C10_display_schema_usage (inputs : String → String) (st : SessionState)
    (restargs : List String) (h : restargs.length ≠ 1) :
    runCommand inputs st "!display_schema" restargs
      = .normal st [displayUsage "!display_schema" "!display_schema <schema_name>"] := by
  simp [runCommand, h]

/-- C10 witness: zero arguments. -/
theorem C10_witness :
    runCommand (fun _ => "") ageState "!display_schema" []
      = .normal ageState [displayUsage "!display_schema" "!display_schema <schema_name>"] :=
  C10_display_schema_usage (fun _ => "") ageState [] (by decide)

theorem loadCacheLoop_disk (st : SessionState) (names : List String) :
    (loadCacheLoop st names).1.disk = st.disk := by
  induction names generalizing st with
  | nil => rfl
  | cons n rest ih =>
    rw [loadCacheLoop]
    cases lookupA st.schemas (pyStrip n) <;> simp [ih, cacheLoad]

theorem lookupA_cacheLoad (st : SessionState) (n s : String) :
    lookupA (cacheLoad st n).schemas s
      = if s = n
        then (lookupA st.schemas s).map (fun sc => { sc with cache := diskRecords st n })
        else lookupA st.schemas s := by
  show lookupA (updateSchemaCache st.schemas n (fun _ => diskRecords st n)) s = _
  rw [lookupA_updateSchemaCache]

/-- Once a schema's cache mirrors its directory, the rest of a bulk
load leaves that schema's entry untouched (re-loading it writes the
same records; loading others does not touch it). -/
theorem loadCacheLoop_preserves_loaded (names : List String) (st : SessionState)
    (s : String) (sc : SchemaM)
    (hl : lookupA st.schemas s = some sc) (hc : sc.cache = diskRecords st s) :
    lookupA (loadCacheLoop st names).1.schemas s = some sc := by
  induction names generalizing st with
  | nil => exact hl
  | cons n rest ih =>
    rw [loadCacheLoop]
    cases hx : lookupA st.schemas (pyStrip n) with
    | none => exact ih st hl hc
    | some sc2 =>
      show lookupA (loadCacheLoop (cacheLoad st (pyStrip n)) rest).1.schemas s = some sc
      apply ih
      · rw [lookupA_cacheLoad]
        by_cases hsn : s = pyStrip n
        · rw [if_pos hsn, hl]
          subst hsn
          rw [← hc]
          rfl
        · rw [if_neg hsn]
          exact hl
      · exact hc

/-- C7: a bulk `!load_cache` over several names processes every name
(each is announced), reports a name with no schema as a per-item
failure, and still fully loads every name that does have a schema —
one bad name never aborts the batch. -/
theorem C7_bulk_load_isolated (st : SessionState) (names : List String) (sname : String)
    (hmem : sname ∈ names) :
    (("⌛[blue]Loading " ++ sname ++ " ...") ∈ (loadCacheLoop st names).2)
    ∧ (lookupA st.schemas (pyStrip sname) = none →
        ("[red]No schema named [bold]" ++ sname ++ "[/bold] found.")
          ∈ (loadCacheLoop st names).2)
    ∧ (∀ sc, lookupA st.schemas (pyStrip sname) = some sc →
        lookupA (loadCacheLoop st names).1.schemas (pyStrip sname)
          = some { sc with cache := diskRecords st (pyStrip sname) }) := by
  induction names generalizing st with
  | nil => cases hmem
  | cons n rest ih =>
    rcases List.mem_cons.mp hmem with heq | hmem2
    · subst heq
      refine ⟨?_, ?_, ?_⟩
      · rw [loadCacheLoop]
        cases lookupA st.schemas (pyStrip sname) <;> simp
      · intro hnone
        rw [loadCacheLoop, hnone]
        simp
      · intro sc hsc
        rw [loadCacheLoop, hsc]
        show lookupA (loadCacheLoop (cacheLoad st (pyStrip sname)) rest).1.schemas
            (pyStrip sname) = _
        apply loadCacheLoop_preserves_loaded
        · rw [lookupA_cacheLoad, if_pos rfl, hsc]
          rfl
        · rfl
    · rw [loadCacheLoop]
      cases hx : lookupA st.schemas (pyStrip n) with
      | none =>
        obtain ⟨h1, h2, h3⟩ := ih st hmem2
        refine ⟨List.mem_cons_of_mem _ (List.mem_cons_of_mem _ h1),
          fun hn => ?_, fun sc hsc => ?_⟩
        · exact List.mem_cons_of_mem _ (List.mem_cons_of_mem _ (h2 hn))
        · exact h3 sc hsc
      | some sc2 =>
        obtain ⟨h1, h2, h3⟩ := ih (cacheLoad st (pyStrip n)) hmem2
        refine ⟨List.mem_cons_of_mem _ h1, fun hn => ?_, fun sc hsc => ?_⟩
        · apply List.mem_cons_of_mem
          apply h2
          rw [lookupA_cacheLoad]
          by_cases hsn : pyStrip sname = pyStrip n
          · rw [if_pos hsn, hn]
            rfl
          · rw [if_neg hsn]
            exact hn
        · by_cases hsn : pyStrip sname = pyStrip n
          · have hsc2 : lookupA (cacheLoad st (pyStrip n)).schemas (pyStrip sname)
                = some { sc with cache := diskRecords st (pyStrip n) } := by
              rw [lookupA_cacheLoad, if_pos hsn, hsc]
              rfl
            exact h3 { sc with cache := diskRecords st (pyStrip n) } hsc2
          · have hsc2 : lookupA (cacheLoad st (pyStrip n)).schemas (pyStrip sname)
                = some sc := by
              rw [lookupA_cacheLoad, if_neg hsn]
              exact hsc
            exact h3 _ hsc2

/-- C7 witness: the bulk load `["a", "ghost"]` — `ghost` is reported
as a per-item miss and `a` is still fully loaded from disk. -/
theorem C7_witness :
    ("[red]No schema named [bold]ghost[/bold] found.")
      ∈ (loadCacheLoop loadState ["a", "ghost"]).2
    ∧ lookupA (loadCacheLoop loadState ["a", "ghost"]).1.schemas "a"
        = some { configs := [("age", .INTEGER)],
                 cache := [("u1", [("age", PyVal.int 30)])] } := by
  constructor
  · exact (C7_bulk_load_isolated loadState ["a", "ghost"] "ghost" (by simp)).2.1 rfl
  · exact ((C7_bulk_load_isolated loadState ["a", "ghost"] "a" (by simp)).2.2
      { configs := [("age", .INTEGER)], cache := [] } rfl).trans rfl

/-- A successful `Schema.write` validation passes the supplied fields
through unchanged. -/
theorem validateFields_ok_id (configs : List (String × SchemaTypeToPyT)) :
    ∀ (kvs : List (String × PyVal)) (rec : Record),
      validateFields configs kvs = .ok rec → rec = kvs
  | [], rec, h => by
    simp only [validateFields] at h
    cases h
    rfl
  | (k, v) :: rest, rec, h => by
    simp only [validateFields] at h
    cases hl : lookupA configs k with
    | none =>
      simp only [hl] at h
      cases hr : validateFields configs rest with
      | error e => simp only [hr] at h; exact Except.noConfusion h
      | ok r =>
        simp only [hr] at h
        cases h
        rw [validateFields_ok_id configs rest r hr]
    | some t =>
      simp only [hl] at h
      by_cases ht : tagMatches t v = true
      · rw [if_pos ht] at h
        cases hr : validateFields configs rest with
        | error e => simp only [hr] at h; exact Except.noConfusion h
        | ok r =>
          simp only [hr] at h
          cases h
          rw [validateFields_ok_id configs rest r hr]
      · rw [if_neg ht] at h
        exact Except.noConfusion h

/-- C8: a record the interactive insert validates and that
`Schema.write`'s own Type System validation then accepts is persisted
via the Storage Backend and the cache, and reading the same identifier
back returns exactly that mapping (values, hence runtime types,
unchanged), whose keys are the declared field names in order. -/
theorem C8_round_trip (inputs : String → String) (st st2 : SessionState) (sname id : String)
    (sc : SchemaM) (entries : Record)
    (hs : lookupA st.schemas sname = some sc)
    (hok : mapInsertEntries inputs sc.configs = .ok entries)
    (hw : schemaWrite st sname id entries = .ok st2) :
    runCommand inputs st "insert" [sname, id] = .normal st2 []
    ∧ schemaRead st2 sname id = some (entries, st2)
    ∧ entries.map Prod.fst = sc.configs.map Prod.fst := by
  have hcfg : ((lookupA st.schemas sname).map SchemaM.configs).getD [] = sc.configs := by
    rw [hs]
    rfl
  have hst2 : st2 = persistPut st sname id entries := by
    rw [schemaWrite, hcfg] at hw
    cases hv : validateFields sc.configs entries with
    | error e => simp only [hv] at hw; exact Except.noConfusion hw
    | ok rec =>
      simp only [hv] at hw
      cases hw
      rw [validateFields_ok_id sc.configs entries rec hv]
  subst hst2
  refine ⟨?_, ?_, mapInsertEntries_ok_keys inputs _ _ hok⟩
  · simp [runCommand, hs, hok, hw]
  · have h1 : lookupA (persistPut st sname id entries).schemas sname
        = some { sc with cache := setA sc.cache id entries } := by
      show lookupA (updateSchemaCache st.schemas sname (fun c => setA c id entries)) sname = _
      rw [lookupA_updateSchemaCache, if_pos rfl, hs]
      rfl
    simp [schemaRead, h1, cacheGet, lookupA_setA_self]

/-- C8 witness: the spec's round-trip scenario `name STRING age
INTEGER` with `Ann` / `30`, which the write-side Type System also
accepts. -/
theorem C8_witness :
    runCommand annInputs userState "insert" ["user", "u1"]
      = .normal (persistPut userState "user" "u1"
          [("name", .str "Ann"), ("age", .int 30)]) []
    ∧ schemaRead (persistPut userState "user" "u1"
          [("name", .str "Ann"), ("age", .int 30)]) "user" "u1"
      = some ([("name", .str "Ann"), ("age", .int 30)],
          persistPut userState "user" "u1" [("name", .str "Ann"), ("age", .int 30)]) := by
  have h := C8_round_trip annInputs userState
    (persistPut userState "user" "u1" [("name", .str "Ann"), ("age", .int 30)])
    "user" "u1"
    { configs := [("name", .STRING), ("age", .INTEGER)], cache := [] }
    [("name", .str "Ann"), ("age", .int 30)] rfl rfl rfl
  exact ⟨h.1, h.2.1⟩

/-- C9: when every declared field is scalar and every input passes
validation, `map_insert_to_json` returns the JSON serialization of the
entries mapping; its keys are exactly the declared field names in
declaration order, STRING fields are bound to the raw input text, and
non-string fields to their JSON-decoded values. -/
theorem C9_insert_serialization (inputs : String → String)
    (configs : List (String × SchemaTypeToPyT)) (entries : Record)
    (hscalar : ∀ p ∈ configs,
      p.2 = .STRING ∨ p.2 = .INTEGER ∨ p.2 = .FLOAT ∨ p.2 = .BOOL)
    (hok : mapInsertEntries inputs configs = .ok entries) :
    map_insert_to_json inputs configs = .ok (jsonDumps entries)
    ∧ entries.map Prod.fst = configs.map Prod.fst
    ∧ List.Forall₂
        (fun (p : String × SchemaTypeToPyT) (e : String × PyVal) =>
          e.1 = p.1
          ∧ (p.2 = .STRING → e.2 = .str (inputs p.1))
          ∧ (p.2 ≠ .STRING → jsonParse (inputs p.1) = some e.2))
        configs entries := by
  refine ⟨by simp [map_insert_to_json, hok, Except.map],
    mapInsertEntries_ok_keys inputs configs entries hok, ?_⟩
  refine (mapInsertEntries_ok_spec inputs configs entries hok).imp ?_
  intro p e h
  refine ⟨h.1, fun hstr => ?_, fun hne => processField_ok_val hne h.2⟩
  have h2 := h.2
  rw [hstr, processField_string] at h2
  exact (Except.ok.inj h2).symm

/-- C9 witness: the two-scalar-field configuration serialized. -/
theorem C9_witness :
    map_insert_to_json annInputs [("name", .STRING), ("age", .INTEGER)]
      = .ok "\x7b\"name\": \"Ann\", \"age\": 30\x7d" :=
  ((C9_insert_serialization annInputs [("name", .STRING), ("age", .INTEGER)]
      [("name", .str "Ann"), ("age", .int 30)] (by decide) rfl).1).trans rfl
